import Mathlib

/-!
Shallow embedding of the tau-bench airline tool suite (src/tools) and proofs
about it.  Python dictionaries are modelled as association lists over String
keys (insertion order preserved, as in CPython); Python numbers appearing in
payment amounts, balances and prices are modelled as integers, which is what
the seed data uses.  A tool that mutates the shared `data` dictionary is
embedded as a function returning the result together with the new database.
-/

set_option autoImplicit false

namespace TauBench

/-- Association list with String keys, modelling a Python dict. -/
abbrev AList (α : Type) : Type := List (String × α)

/-- First value bound to a key, modelling dict lookup / the `in` test. -/
def alookup {α : Type} : AList α → String → Option α
  | [], _ => none
  | e :: rest, k => if e.1 = k then some e.2 else alookup rest k

/-- Dict assignment: replace the value in place when the key is present,
append a fresh binding otherwise. -/
def aupdate {α : Type} : AList α → String → α → AList α
  | [], k, v => [(k, v)]
  | e :: rest, k, v => if e.1 = k then (k, v) :: rest else e :: aupdate rest k v

/-- Dict deletion of a present key: drop the first binding of the key. -/
def aerase {α : Type} : AList α → String → AList α
  | [], _ => []
  | e :: rest, k => if e.1 = k then rest else e :: aerase rest k

/-- The keys of an association list, in order. -/
def akeys {α : Type} (m : AList α) : List String := m.map Prod.fst

/-- A stored payment method on a user profile (user["payment_methods"][pid]).
Only the fields the tools read are embedded; `amount` is only meaningful for
the gift_card and certificate sources, exactly as in the tools. -/
structure PaymentMethod where
  source : String
  amount : Int
  id : String
  deriving DecidableEq, Repr

/-- A declared payment in a booking request, and also an entry of a
reservation payment_history (both carry exactly payment_id and amount). -/
structure PaymentInput where
  payment_id : String
  amount : Int
  deriving DecidableEq, Repr

/-- A passenger object of a booking request. -/
structure Passenger where
  first_name : String
  last_name : String
  dob : String
  deriving DecidableEq, Repr

/-- A requested flight leg of a booking request: flight number and date. -/
structure FlightRef where
  flight_number : String
  date : String
  deriving DecidableEq, Repr

/-- A flight leg as stored inside a created reservation: the request leg
after book_reservation has filled in price, origin and destination. -/
structure ResFlight where
  flight_number : String
  date : String
  price : Int
  origin : String
  destination : String
  deriving DecidableEq, Repr

/-- The per-date record of a flight (flight["dates"][date]).  For an
available date it carries the seat counts and prices per cabin. -/
structure DateInfo where
  status : String
  available_seats : AList Int
  prices : AList Int
  deriving DecidableEq, Repr

/-- A flight record of the flights collection. -/
structure Flight where
  flight_number : String
  origin : String
  destination : String
  dates : AList DateInfo
  deriving DecidableEq, Repr

/-- A reservation record, with the exact fields book_reservation creates.
The status key is absent on creation and added by cancel_reservation, hence
an Option. -/
structure Reservation where
  reservation_id : String
  user_id : String
  origin : String
  destination : String
  flight_type : String
  cabin : String
  flights : List ResFlight
  passengers : List Passenger
  payment_history : List PaymentInput
  created_at : String
  total_baggages : Nat
  nonfree_baggages : Nat
  insurance : String
  status : Option String
  deriving DecidableEq, Repr

/-- A user record; only the fields the tools read are embedded. -/
structure User where
  payment_methods : AList PaymentMethod
  reservations : List String
  deriving DecidableEq, Repr

/-- The shared mutable data dictionary. -/
structure Database where
  users : AList User
  flights : AList Flight
  reservations : AList Reservation
  deriving DecidableEq, Repr

/-- Outcome of a tool call on the Python side: a returned value (the record
whose json.dumps the tool returns), a returned error string, or an uncaught
Python exception (a KeyError escaping the tool). -/
inductive PyExcept (α : Type) where
  | ok (a : α)
  | err (e : String)
  | exn
  deriving DecidableEq, Repr

/-- src/tools/get_user_details.py: pure lookup, returns the user record
(serialized) or a not-found error; never writes to the database. -/
def get_user_details (user_id : String) (db : Database) :
    PyExcept User × Database :=
  match alookup db.users user_id with
  | some u => (.ok u, db)
  | none => (.err "Error: user not found", db)

/-- The refund entry cancel_reservation synthesizes from a payment entry:
same payment_id, negated amount. -/
def negEntry (p : PaymentInput) : PaymentInput :=
  { payment_id := p.payment_id, amount := -p.amount }

/-- The mutation cancel_reservation performs on a found reservation:
append the negation of every prior payment entry, set status cancelled. -/
def cancelled (r : Reservation) : Reservation :=
  { r with
    payment_history := r.payment_history ++ r.payment_history.map negEntry,
    status := some "cancelled" }

/-- src/tools/cancel_reservation.py: append the negation of every prior
payment entry and set status to cancelled; error when the id is unknown. -/
def cancel_reservation (reservation_id : String) (db : Database) :
    PyExcept Reservation × Database :=
  match alookup db.reservations reservation_id with
  | none => (.err "Error: reservation not found", db)
  | some r =>
      (.ok (cancelled r),
       { db with reservations := aupdate db.reservations reservation_id (cancelled r) })

/-- The merged record search_direct_flight returns for a matching flight:
the flight record without its dates field, updated with the fields of the
per-date record. -/
structure FlightResult where
  flight_number : String
  origin : String
  destination : String
  status : String
  available_seats : AList Int
  prices : AList Int
  deriving DecidableEq, Repr

/-- Merge a flight record (minus dates) with one of its per-date records. -/
def mergeFlight (f : Flight) (di : DateInfo) : FlightResult :=
  { flight_number := f.flight_number, origin := f.origin,
    destination := f.destination, status := di.status,
    available_seats := di.available_seats, prices := di.prices }

/-- src/tools/search_direct_flight.py: iterate the flights collection in
order, keep flights whose origin and destination match exactly and whose
dates contain the requested date with status available; each kept flight is
returned merged with its per-date record.  The JSON serialization of the
result list is abstracted to the list itself (the empty list serializes to
the two-character string of an empty array). -/
def search_direct_flight (origin destination date : String) (db : Database) :
    List FlightResult :=
  db.flights.filterMap (fun e =>
    if e.2.origin = origin ∧ e.2.destination = destination then
      match alookup e.2.dates date with
      | some di => if di.status = "available" then some (mergeFlight e.2 di) else none
      | none => none
    else none)

/-- The fixed certificate id pool of send_certificate, in order. -/
def certificatePool : List String :=
  ["certificate_3221322", "certificate_3221323", "certificate_3221324"]

/-- src/tools/send_certificate.py: add a certificate payment method under
the first free id of the fixed pool, or fail when the pool is exhausted. -/
def send_certificate (user_id : String) (amount : Int) (db : Database) :
    String × Database :=
  match alookup db.users user_id with
  | none => ("Error: user not found", db)
  | some user =>
      match certificatePool.find? (fun pid => (alookup user.payment_methods pid).isNone) with
      | none => ("Error: No available certificate slots", db)
      | some pid =>
          let pm : PaymentMethod := { source := "certificate", amount := amount, id := pid }
          let user' : User := { user with payment_methods := aupdate user.payment_methods pid pm }
          let msg : String := "Certificate " ++ pid ++ " added to user " ++ user_id ++
            " with amount " ++ toString amount ++ "."
          (msg, { db with users := aupdate db.users user_id user' })

/-- The fixed reservation id pool of book_reservation: HATHAT, then HATHAU,
then unconditionally HATHAV (lines 50 to 55 of the source). -/
def allocateReservationId (reservations : AList Reservation) : String :=
  if (alookup reservations "HATHAT").isNone then "HATHAT"
  else if (alookup reservations "HATHAU").isNone then "HATHAU"
  else "HATHAV"

/-- The per-leg validation and pricing loop of book_reservation (lines 74 to
94 of the source): look the flight up, check the date exists and is
available and has enough seats in the cabin, record price and endpoints,
and accumulate price times passenger count.  A missing cabin key in the
seats or prices dict is a KeyError, modelled as exn. -/
def processLegs (fl : AList Flight) (cabin : String) (npass : Nat) :
    List FlightRef → List ResFlight → Int → PyExcept (List ResFlight × Int)
  | [], acc, total => .ok (acc, total)
  | f :: rest, acc, total =>
      match alookup fl f.flight_number with
      | none => .err ("Error: flight " ++ f.flight_number ++ " not found")
      | some fd =>
          match alookup fd.dates f.date with
          | none => .err ("Error: flight " ++ f.flight_number ++ " not found on date " ++ f.date)
          | some di =>
              if di.status = "available" then
                match alookup di.available_seats cabin with
                | none => .exn
                | some seats =>
                    if seats < (npass : Int) then
                      .err ("Error: not enough seats on flight " ++ f.flight_number)
                    else
                      match alookup di.prices cabin with
                      | none => .exn
                      | some price =>
                          processLegs fl cabin npass rest
                            (acc ++ [{ flight_number := f.flight_number, date := f.date,
                                       price := price, origin := fd.origin,
                                       destination := fd.destination }])
                            (total + price * (npass : Int))
              else
                .err ("Error: flight " ++ f.flight_number ++ " not available on date " ++ f.date)

/-- The payment validation loop of book_reservation (lines 102 to 110):
every declared method must exist on the user, and gift cards and
certificates must hold at least the declared amount. -/
def validatePayments : List PaymentInput → AList PaymentMethod → Option String
  | [], _ => none
  | pm :: rest, m =>
      match alookup m pm.payment_id with
      | none => some ("Error: payment method " ++ pm.payment_id ++ " not found")
      | some s =>
          if (s.source = "gift_card" ∨ s.source = "certificate") ∧ s.amount < pm.amount then
            some ("Error: not enough balance in payment method " ++ pm.payment_id)
          else validatePayments rest m

/-- The sum of the declared amounts of a payment list. -/
def paymentsSum (pms : List PaymentInput) : Int :=
  (pms.map PaymentInput.amount).sum

/-- The payment mutation loop of book_reservation (lines 116 to 122): deduct
gift cards, delete certificates.  Looking up a payment id that an earlier
iteration deleted is a KeyError; the error carries the map at the point of
the crash, since the partial deductions are already visible in the shared
data dictionary. -/
def applyPayments :
    List PaymentInput → AList PaymentMethod →
      Except (AList PaymentMethod) (AList PaymentMethod)
  | [], m => .ok m
  | pm :: rest, m =>
      match alookup m pm.payment_id with
      | none => .error m
      | some s =>
          if s.source = "gift_card" then
            applyPayments rest (aupdate m pm.payment_id { s with amount := s.amount - pm.amount })
          else if s.source = "certificate" then
            applyPayments rest (aerase m pm.payment_id)
          else applyPayments rest m

/-- src/tools/book_reservation.py: validate the user, the legs and the
payments, then atomically deduct payments, store the reservation under the
allocated id and append the id to the user's reservation list.  The JSON
serialization of the created record is abstracted to the record itself. -/
def book_reservation (user_id origin destination flight_type cabin : String)
    (flights : List FlightRef) (passengers : List Passenger)
    (payment_methods : List PaymentInput)
    (total_baggages nonfree_baggages : Nat) (insurance : String)
    (db : Database) : PyExcept Reservation × Database :=
  match alookup db.users user_id with
  | none => (.err "Error: user not found", db)
  | some user =>
      let reservation_id := allocateReservationId db.reservations
      match processLegs db.flights cabin passengers.length flights [] 0 with
      | .err e => (.err e, db)
      | .exn => (.exn, db)
      | .ok (legs, basePrice) =>
          let total_price : Int :=
            basePrice + (if insurance = "yes" then 30 * (passengers.length : Int) else 0)
              + 50 * (nonfree_baggages : Int)
          match validatePayments payment_methods user.payment_methods with
          | some e => (.err e, db)
          | none =>
              let paid : Int := paymentsSum payment_methods
              if paid ≠ total_price then
                (.err ("Error: payment amount does not add up, total price is " ++
                   toString total_price ++ ", but paid " ++ toString paid), db)
              else
                match applyPayments payment_methods user.payment_methods with
                | .error m =>
                    let userCrash : User := { user with payment_methods := m }
                    (.exn, { db with users := aupdate db.users user_id userCrash })
                | .ok m =>
                    let reservation : Reservation :=
                      { reservation_id := reservation_id, user_id := user_id,
                        origin := origin, destination := destination,
                        flight_type := flight_type, cabin := cabin, flights := legs,
                        passengers := passengers, payment_history := payment_methods,
                        created_at := "2024-05-15T15:00:00",
                        total_baggages := total_baggages,
                        nonfree_baggages := nonfree_baggages, insurance := insurance,
                        status := none }
                    let user' : User :=
                      { user with
                        payment_methods := m,
                        reservations := user.reservations ++ [reservation_id] }
                    (.ok reservation,
                     { db with
                       users := aupdate db.users user_id user',
                       reservations := aupdate db.reservations reservation_id reservation })

/-- A string starting with the error marker every tool error carries. -/
def isErrorString (s : String) : Prop := ∃ r, s = "Error:" ++ r

/-- What the per-leg loop of book_reservation establishes and records for
one requested leg: the flight exists, the date exists and is available, the
cabin has at least the passenger count of seats, and the stored leg carries
the per-cabin price of that date and the endpoints of the flight record. -/
def legOk (fl : AList Flight) (cabin : String) (npass : Nat)
    (f : FlightRef) (l : ResFlight) : Prop :=
  ∃ fd di seats,
    alookup fl f.flight_number = some fd ∧
    alookup fd.dates f.date = some di ∧
    di.status = "available" ∧
    alookup di.available_seats cabin = some seats ∧
    (npass : Int) ≤ seats ∧
    alookup di.prices cabin = some l.price ∧
    l.flight_number = f.flight_number ∧ l.date = f.date ∧
    l.origin = fd.origin ∧ l.destination = fd.destination

/-- The requested cabin has a seat count and a price in every per-date
record of the flights collection, as the seed data schema guarantees for
the three cabin enum values (the source indexes both dicts unchecked). -/
def cabinPresent (fl : AList Flight) (cabin : String) : Prop :=
  ∀ e ∈ fl, ∀ d ∈ e.2.dates,
    (alookup d.2.available_seats cabin).isSome ∧ (alookup d.2.prices cabin).isSome

instance (fl : AList Flight) (cabin : String) : Decidable (cabinPresent fl cabin) :=
  List.decidableBAll _ fl

/-- No payment method stored with source certificate is declared more than
once in the request; duplicating a certificate makes the mutation loop of
the source raise a KeyError after deleting it. -/
def certOnce (m : AList PaymentMethod) (pms : List PaymentInput) : Prop :=
  ∀ e ∈ m, e.2.source = "certificate" →
    pms.countP (fun pm => pm.payment_id == e.1) ≤ 1

instance (m : AList PaymentMethod) (pms : List PaymentInput) : Decidable (certOnce m pms) :=
  List.decidableBAll _ m

/-- certOnce lifted over the optional result of the user lookup. -/
def certOnceUser : Option User → List PaymentInput → Prop
  | none, _ => True
  | some u, pms => certOnce u.payment_methods pms

instance (o : Option User) (pms : List PaymentInput) : Decidable (certOnceUser o pms) :=
  match o with
  | none => isTrue trivial
  | some u => inferInstanceAs (Decidable (certOnce u.payment_methods pms))

/-- The total of declared amounts for one payment id. -/
def declaredFor (pms : List PaymentInput) (pid : String) : Int :=
  ((pms.filter (fun pm => pm.payment_id == pid)).map PaymentInput.amount).sum

/-- Sample available date record used by concrete witnesses. -/
def sampleDate : DateInfo :=
  { status := "available",
    available_seats := [("basic_economy", 10), ("economy", 5), ("business", 2)],
    prices := [("basic_economy", 50), ("economy", 100), ("business", 200)] }

/-- Sample flight used by concrete witnesses. -/
def sampleFlight : Flight :=
  { flight_number := "HAT001", origin := "SFO", destination := "JFK",
    dates := [("2024-05-20", sampleDate)] }

/-- Sample user with a gift card, a certificate and a credit card. -/
def sampleUser : User :=
  { payment_methods :=
      [("gc1", { source := "gift_card", amount := 300, id := "gc1" }),
       ("cert1", { source := "certificate", amount := 250, id := "cert1" }),
       ("cc1", { source := "credit_card", amount := 0, id := "cc1" })],
    reservations := [] }

/-- Sample database used by concrete witnesses. -/
def sampleDb : Database :=
  { users := [("sara", sampleUser)], flights := [("HAT001", sampleFlight)],
    reservations := [] }

/-- Sample one-passenger list. -/
def samplePassengers : List Passenger :=
  [{ first_name := "Noah", last_name := "Brown", dob := "1990-01-01" }]

/-- Sample one-leg request for the sample flight. -/
def sampleLegs : List FlightRef :=
  [{ flight_number := "HAT001", date := "2024-05-20" }]

/-- A reservation with a two-entry payment history, for cancel witnesses. -/
def sampleReservation : Reservation :=
  { reservation_id := "ZFA04Y", user_id := "sara", origin := "SFO",
    destination := "JFK", flight_type := "one_way", cabin := "economy",
    flights := [{ flight_number := "HAT001", date := "2024-05-20", price := 100,
                  origin := "SFO", destination := "JFK" }],
    passengers := [{ first_name := "Noah", last_name := "Brown", dob := "1990-01-01" }],
    payment_history := [{ payment_id := "cc1", amount := 120 },
                        { payment_id := "gc1", amount := 30 }],
    created_at := "2024-05-01T10:00:00", total_baggages := 1,
    nonfree_baggages := 0, insurance := "no", status := none }

/-- Database holding sampleReservation, for cancel witnesses. -/
def cancelDb : Database :=
  { users := [("sara", sampleUser)], flights := [("HAT001", sampleFlight)],
    reservations := [("ZFA04Y", sampleReservation)] }

/-- A user holding one certificate, booking with it declared twice: the
concrete input on which the booking tool crashes mid-mutation. -/
def miaUser : User :=
  { payment_methods := [("cert_m", { source := "certificate", amount := 100, id := "cert_m" })],
    reservations := [] }

/-- Database for the duplicate-certificate atomicity counterexample. -/
def miaDb : Database :=
  { users := [("mia", miaUser)], flights := [("HAT001", sampleFlight)],
    reservations := [] }

/-- The duplicate-certificate payment list for miaDb: both entries pass
validation against the untouched map and sum to the exact total of 100. -/
def miaPayments : List PaymentInput :=
  [{ payment_id := "cert_m", amount := 100 }, { payment_id := "cert_m", amount := 0 }]

/-- Second duplicate-certificate user, for the validated-but-unapplied
counterexample. -/
def leeUser : User :=
  { payment_methods := [("cert_l", { source := "certificate", amount := 250, id := "cert_l" })],
    reservations := [] }

/-- Database for the second duplicate-certificate counterexample. -/
def leeDb : Database :=
  { users := [("lee", leeUser)], flights := [("HAT001", sampleFlight)],
    reservations := [] }

/-- Payment list declaring the same certificate twice, summing to the
total of 100. -/
def leePayments : List PaymentInput :=
  [{ payment_id := "cert_l", amount := 50 }, { payment_id := "cert_l", amount := 50 }]

/-- A placeholder reservation occupying an id of the fixed pool. -/
def dummyRes (rid : String) : Reservation :=
  { reservation_id := rid, user_id := "old_user", origin := "ABC",
    destination := "DEF", flight_type := "one_way", cabin := "economy",
    flights := [], passengers := [], payment_history := [],
    created_at := "2024-01-01T00:00:00", total_baggages := 0,
    nonfree_baggages := 0, insurance := "no", status := none }

/-- Database whose reservation id pool is fully occupied. -/
def poolDb : Database :=
  { users := [("sara", sampleUser)], flights := [("HAT001", sampleFlight)],
    reservations := [("HATHAT", dummyRes "HATHAT"), ("HATHAU", dummyRes "HATHAU"),
                     ("HATHAV", dummyRes "HATHAV")] }

/-- The success outcome of send_certificate for user u under pool id pid:
the confirmation message and the database with the certificate appended. -/
def certSuccess (user_id : String) (amount : Int) (db : Database) (u : User)
    (pid : String) : Prop :=
  let pm : PaymentMethod := { source := "certificate", amount := amount, id := pid }
  let u' : User := { u with payment_methods := aupdate u.payment_methods pid pm }
  send_certificate user_id amount db =
    ("Certificate " ++ pid ++ " added to user " ++ user_id ++ " with amount " ++
       toString amount ++ ".",
     { db with users := aupdate db.users user_id u' })

/-- The reservation record the sample booking creates. -/
def sampleBooked : Reservation :=
  { reservation_id := "HATHAT", user_id := "sara", origin := "SFO", destination := "JFK",
    flight_type := "one_way", cabin := "economy",
    flights := [{ flight_number := "HAT001", date := "2024-05-20", price := 100,
                  origin := "SFO", destination := "JFK" }],
    passengers := samplePassengers,
    payment_history := [{ payment_id := "gc1", amount := 100 }],
    created_at := "2024-05-15T15:00:00", total_baggages := 1, nonfree_baggages := 0,
    insurance := "no", status := none }

/-- sampleUser after the sample booking: gift card reduced, id recorded. -/
def sampleBookedUser : User :=
  { payment_methods :=
      [("gc1", { source := "gift_card", amount := 200, id := "gc1" }),
       ("cert1", { source := "certificate", amount := 250, id := "cert1" }),
       ("cc1", { source := "credit_card", amount := 0, id := "cc1" })],
    reservations := ["HATHAT"] }

/-- sampleDb after the sample booking. -/
def sampleBookedDb : Database :=
  { users := [("sara", sampleBookedUser)], flights := [("HAT001", sampleFlight)],
    reservations := [("HATHAT", sampleBooked)] }

/-- The reservation created when the id pool is exhausted: stored under the
last pool id, replacing what was there. -/
def poolBooked : Reservation := { sampleBooked with reservation_id := "HATHAV" }

theorem alookup_mem {α : Type} {m : AList α} {k : String} {v : α}
    (h : alookup m k = some v) : (k, v) ∈ m := by
  induction m with
  | nil => simp [alookup] at h
  | cons e rest ih =>
      by_cases he : e.1 = k
      · simp only [alookup, he, if_pos, Option.some.injEq] at h
        subst h
        subst he
        exact List.mem_cons_self e rest
      · simp only [alookup, he, if_neg, not_false_iff] at h
        exact List.mem_cons_of_mem e (ih h)

theorem alookup_eq_none_iff {α : Type} {m : AList α} {k : String} :
    alookup m k = none ↔ k ∉ akeys m := by
  induction m with
  | nil => simp [alookup, akeys]
  | cons e rest ih =>
      by_cases he : e.1 = k
      · simp [alookup, akeys, he]
      · simp [alookup, akeys, he, ih, Ne.symm he]

theorem alookup_aupdate_self {α : Type} (m : AList α) (k : String) (v : α) :
    alookup (aupdate m k v) k = some v := by
  induction m with
  | nil => simp [aupdate, alookup]
  | cons e rest ih =>
      by_cases he : e.1 = k
      · simp [aupdate, he, alookup]
      · simp [aupdate, he, alookup, ih]

theorem alookup_aupdate_ne {α : Type} (m : AList α) (k k' : String) (v : α)
    (h : k' ≠ k) : alookup (aupdate m k v) k' = alookup m k' := by
  induction m with
  | nil =>
      simp only [aupdate, alookup]
      rw [if_neg (fun hh : k = k' => h hh.symm)]
  | cons e rest ih =>
      by_cases he : e.1 = k
      · simp only [aupdate, if_pos he, alookup]
        rw [if_neg (fun hh : k = k' => h hh.symm),
          if_neg (fun hh : e.1 = k' => h (he.symm.trans hh).symm)]
      · simp only [aupdate, if_neg he, alookup]
        by_cases he' : e.1 = k'
        · rw [if_pos he', if_pos he']
        · rw [if_neg he', if_neg he', ih]

theorem alookup_aerase_ne {α : Type} (m : AList α) (k k' : String)
    (h : k' ≠ k) : alookup (aerase m k) k' = alookup m k' := by
  induction m with
  | nil => simp [aerase]
  | cons e rest ih =>
      by_cases he : e.1 = k
      · simp only [aerase, if_pos he, alookup]
        rw [if_neg (fun hh : e.1 = k' => h (he.symm.trans hh).symm)]
      · simp only [aerase, if_neg he, alookup]
        by_cases he' : e.1 = k'
        · rw [if_pos he', if_pos he']
        · rw [if_neg he', if_neg he', ih]

theorem aerase_sublist {α : Type} (m : AList α) (k : String) :
    (aerase m k).Sublist m := by
  induction m with
  | nil => simp [aerase]
  | cons e rest ih =>
      by_cases he : e.1 = k
      · simp only [aerase, if_pos he]
        exact List.sublist_cons_self e rest
      · simp only [aerase, if_neg he]
        exact ih.cons₂ e

theorem akeys_nodup_aerase {α : Type} {m : AList α} (k : String)
    (h : (akeys m).Nodup) : (akeys (aerase m k)).Nodup :=
  h.sublist ((aerase_sublist m k).map Prod.fst)

theorem alookup_aerase_self {α : Type} {m : AList α} {k : String}
    (h : (akeys m).Nodup) : alookup (aerase m k) k = none := by
  induction m with
  | nil => simp [aerase, alookup]
  | cons e rest ih =>
      simp only [akeys, List.map_cons, List.nodup_cons] at h
      by_cases he : e.1 = k
      · simp only [aerase, he, if_pos]
        exact alookup_eq_none_iff.mpr (he ▸ h.1)
      · simp only [aerase, if_neg he, alookup]
        exact ih h.2

theorem mem_akeys_aupdate {α : Type} {m : AList α} {k a : String} {v : α}
    (h : a ∈ akeys (aupdate m k v)) : a = k ∨ a ∈ akeys m := by
  induction m with
  | nil => simpa [aupdate, akeys] using h
  | cons e rest ih =>
      by_cases he : e.1 = k
      · simp only [aupdate, he, if_pos, akeys, List.map_cons, List.mem_cons] at h ⊢
        tauto
      · simp only [aupdate, he, if_neg, not_false_iff, akeys, List.map_cons,
          List.mem_cons] at h ⊢
        rcases h with h | h
        · tauto
        · rcases ih h with h' | h' <;> tauto

theorem akeys_nodup_aupdate {α : Type} {m : AList α} (k : String) (v : α)
    (h : (akeys m).Nodup) : (akeys (aupdate m k v)).Nodup := by
  induction m with
  | nil => simp [aupdate, akeys]
  | cons e rest ih =>
      simp only [akeys, List.map_cons, List.nodup_cons] at h
      by_cases he : e.1 = k
      · simp only [aupdate, he, if_pos, akeys, List.map_cons, List.nodup_cons]
        exact ⟨he ▸ h.1, h.2⟩
      · simp only [aupdate, he, if_neg, not_false_iff, akeys, List.map_cons,
          List.nodup_cons]
        refine ⟨fun hmem => ?_, ih h.2⟩
        rcases mem_akeys_aupdate hmem with h' | h'
        · exact he (h' ▸ rfl)
        · exact h.1 h'

theorem aupdate_aupdate_self {α : Type} (m : AList α) (k : String) (v w : α) :
    aupdate (aupdate m k v) k w = aupdate m k w := by
  induction m with
  | nil => simp [aupdate]
  | cons e rest ih =>
      by_cases he : e.1 = k
      · simp [aupdate, he]
      · simp [aupdate, he, ih]

theorem errStr_append {s : String} (h : isErrorString s) (t : String) :
    isErrorString (s ++ t) := by
  obtain ⟨r, hr⟩ := h
  exact ⟨r ++ t, by rw [hr, String.append_assoc]⟩

/-- Claim C8: for every user id absent from the users collection,
get_user_details returns exactly the string Error: user not found and leaves
the database unchanged; for every present id it returns the user record
(JSON serialization abstracted to the record) without mutating the database. -/
theorem get_user_details_spec (user_id : String) (db : Database) :
    (alookup db.users user_id = none →
       get_user_details user_id db = (.err "Error: user not found", db)) ∧
    (∀ u, alookup db.users user_id = some u →
       get_user_details user_id db = (.ok u, db)) := by
  constructor
  · intro h
    simp [get_user_details, h]
  · intro u h
    simp [get_user_details, h]

theorem get_user_details_spec_witness :
    get_user_details "nobody" sampleDb = (.err "Error: user not found", sampleDb) ∧
    get_user_details "sara" sampleDb = (.ok sampleUser, sampleDb) :=
  ⟨(get_user_details_spec "nobody" sampleDb).1 (by decide),
   (get_user_details_spec "sara" sampleDb).2 sampleUser (by decide)⟩

/-- Claim C9: for every existing user, send_certificate adds a payment
method with source certificate and the given amount under the first free id
of the fixed pool certificate_3221322, certificate_3221323,
certificate_3221324 in that order and returns a confirmation string; when
all three ids exist on the user it returns an error string and adds
nothing; for an unknown user it returns Error: user not found. -/
theorem send_certificate_spec (user_id : String) (amount : Int) (db : Database) :
    (alookup db.users user_id = none →
       send_certificate user_id amount db = ("Error: user not found", db)) ∧
    (∀ u, alookup db.users user_id = some u →
      ((alookup u.payment_methods "certificate_3221322" = none →
          certSuccess user_id amount db u "certificate_3221322") ∧
       ((alookup u.payment_methods "certificate_3221322").isSome →
          alookup u.payment_methods "certificate_3221323" = none →
          certSuccess user_id amount db u "certificate_3221323") ∧
       ((alookup u.payment_methods "certificate_3221322").isSome →
          (alookup u.payment_methods "certificate_3221323").isSome →
          alookup u.payment_methods "certificate_3221324" = none →
          certSuccess user_id amount db u "certificate_3221324") ∧
       ((∀ pid ∈ certificatePool, (alookup u.payment_methods pid).isSome) →
          send_certificate user_id amount db =
            ("Error: No available certificate slots", db)))) := by
  constructor
  · intro h
    simp [send_certificate, h]
  · intro u hu
    refine ⟨?_, ?_, ?_, ?_⟩
    · intro h1
      simp [certSuccess, send_certificate, hu, certificatePool, List.find?, h1]
    · intro h1 h2
      rw [Option.isSome_iff_exists] at h1
      obtain ⟨a, ha⟩ := h1
      simp [certSuccess, send_certificate, hu, certificatePool, List.find?, ha, h2]
    · intro h1 h2 h3
      rw [Option.isSome_iff_exists] at h1
      rw [Option.isSome_iff_exists] at h2
      obtain ⟨a, ha⟩ := h1
      obtain ⟨b, hb⟩ := h2
      simp [certSuccess, send_certificate, hu, certificatePool, List.find?, ha, hb, h3]
    · intro hall
      have h1 := hall "certificate_3221322" (by simp [certificatePool])
      have h2 := hall "certificate_3221323" (by simp [certificatePool])
      have h3 := hall "certificate_3221324" (by simp [certificatePool])
      rw [Option.isSome_iff_exists] at h1 h2 h3
      obtain ⟨a, ha⟩ := h1
      obtain ⟨b, hb⟩ := h2
      obtain ⟨c, hc⟩ := h3
      simp [send_certificate, hu, certificatePool, List.find?, ha, hb, hc]

theorem send_certificate_spec_witness :
    certSuccess "sara" 500 sampleDb sampleUser "certificate_3221322" ∧
    send_certificate "nope" 500 sampleDb = ("Error: user not found", sampleDb) :=
  ⟨((send_certificate_spec "sara" 500 sampleDb).2 sampleUser (by decide)).1 (by decide),
   (send_certificate_spec "nope" 500 sampleDb).1 (by decide)⟩

theorem search_entry (origin destination date : String)
    (e : String × Flight) (r : FlightResult) :
    ((if e.2.origin = origin ∧ e.2.destination = destination then
        match alookup e.2.dates date with
        | some di => if di.status = "available" then some (mergeFlight e.2 di) else none
        | none => none
      else none) = some r) ↔
      (e.2.origin = origin ∧ e.2.destination = destination ∧
        ∃ di, alookup e.2.dates date = some di ∧ di.status = "available" ∧
          r = mergeFlight e.2 di) := by
  by_cases hod : e.2.origin = origin ∧ e.2.destination = destination
  · rw [if_pos hod]
    cases hd : alookup e.2.dates date with
    | none => simp [hod]
    | some di =>
        by_cases hst : di.status = "available"
        · simp [hod, hst, eq_comm]
        · simp [hod, hst]
  · rw [if_neg hod]
    constructor
    · intro h
      cases h
    · rintro ⟨h1, h2, _⟩
      exact absurd ⟨h1, h2⟩ hod

/-- Claim C7: search_direct_flight returns exactly the flights whose
origin and destination equal the arguments character for character and
whose dates mapping holds the given date with status available, each merged
with the fields of that per-date record; with no match the result is the
empty list (serialized as the two-character empty JSON array), and the
flights collection is never mutated (the embedding returns no state because
the source never assigns into the mapping). -/
theorem search_direct_flight_spec (origin destination date : String) (db : Database) :
    (∀ r, r ∈ search_direct_flight origin destination date db ↔
       ∃ e ∈ db.flights, e.2.origin = origin ∧ e.2.destination = destination ∧
         ∃ di, alookup e.2.dates date = some di ∧ di.status = "available" ∧
           r = mergeFlight e.2 di) ∧
    (search_direct_flight origin destination date db = [] ↔
       ∀ e ∈ db.flights, ¬(e.2.origin = origin ∧ e.2.destination = destination ∧
         ∃ di, alookup e.2.dates date = some di ∧ di.status = "available")) := by
  constructor
  · intro r
    rw [search_direct_flight, List.mem_filterMap]
    constructor
    · rintro ⟨e, he, hsome⟩
      exact ⟨e, he, (search_entry origin destination date e r).mp hsome⟩
    · rintro ⟨e, he, hcond⟩
      exact ⟨e, he, (search_entry origin destination date e r).mpr hcond⟩
  · rw [search_direct_flight, List.filterMap_eq_nil_iff]
    constructor
    · rintro h e he ⟨h1, h2, di, hdi, hst⟩
      have hnone := h e he
      rw [if_pos ⟨h1, h2⟩, hdi] at hnone
      simp [hst] at hnone
    · intro h e he
      by_cases hod : e.2.origin = origin ∧ e.2.destination = destination
      · rw [if_pos hod]
        cases hdi : alookup e.2.dates date with
        | none => rfl
        | some di =>
            by_cases hst : di.status = "available"
            · exact absurd ⟨hod.1, hod.2, di, hdi, hst⟩ (h e he)
            · simp [hst]
      · rw [if_neg hod]

theorem search_direct_flight_spec_witness :
    search_direct_flight "JFK" "LAX" "2024-05-20" sampleDb = [] ∧
    ∀ r, r ∈ search_direct_flight "SFO" "JFK" "2024-05-20" sampleDb ↔
      ∃ e ∈ sampleDb.flights, e.2.origin = "SFO" ∧ e.2.destination = "JFK" ∧
        ∃ di, alookup e.2.dates "2024-05-20" = some di ∧ di.status = "available" ∧
          r = mergeFlight e.2 di := by
  constructor
  · refine (search_direct_flight_spec "JFK" "LAX" "2024-05-20" sampleDb).2.mpr ?_
    rintro e he ⟨h1, h2, _⟩
    simp only [sampleDb, List.mem_singleton] at he
    subst he
    exact absurd h1 (by decide)
  · exact (search_direct_flight_spec "SFO" "JFK" "2024-05-20" sampleDb).1

/-- Claim C2: for every reservation present in the database,
cancel_reservation appends exactly one negated refund entry per prior
payment entry (same payment_id, negated amount, in order, replacing
nothing) and sets status to cancelled; cancelling twice is not idempotent
and appends the negation of the whole doubled history again; an unknown
reservation id yields Error: reservation not found and no change. -/
theorem cancel_reservation_spec (rid : String) (db : Database) :
    (alookup db.reservations rid = none →
       cancel_reservation rid db = (.err "Error: reservation not found", db)) ∧
    (∀ p, (negEntry p).payment_id = p.payment_id ∧ (negEntry p).amount = -p.amount) ∧
    (∀ r, alookup db.reservations rid = some r →
       cancel_reservation rid db =
         (.ok (cancelled r),
          { db with reservations := aupdate db.reservations rid (cancelled r) }) ∧
       (cancelled r).payment_history =
         r.payment_history ++ r.payment_history.map negEntry ∧
       (cancelled r).payment_history.length = 2 * r.payment_history.length ∧
       (cancelled r).status = some "cancelled" ∧
       cancel_reservation rid ((cancel_reservation rid db).2) =
         (.ok (cancelled (cancelled r)),
          { db with reservations := aupdate db.reservations rid (cancelled (cancelled r)) }) ∧
       (cancelled (cancelled r)).payment_history =
         ((r.payment_history ++ r.payment_history.map negEntry) ++
          (r.payment_history ++ r.payment_history.map negEntry).map negEntry) ∧
       (cancelled (cancelled r)).payment_history.length = 4 * r.payment_history.length) := by
  refine ⟨fun h => by simp [cancel_reservation, h], fun p => ⟨rfl, rfl⟩, ?_⟩
  intro r hr
  have hmain : cancel_reservation rid db =
      (.ok (cancelled r),
       { db with reservations := aupdate db.reservations rid (cancelled r) }) := by
    simp [cancel_reservation, hr]
  refine ⟨hmain, rfl, ?_, rfl, ?_, rfl, ?_⟩
  · simp only [cancelled, List.length_append, List.length_map]
    omega
  · rw [hmain]
    simp [cancel_reservation, alookup_aupdate_self, aupdate_aupdate_self]
  · simp only [cancelled, List.length_append, List.length_map]
    omega

theorem cancel_reservation_spec_witness :
    cancel_reservation "ZFA04Y" cancelDb =
      (.ok (cancelled sampleReservation),
       { cancelDb with
         reservations := aupdate cancelDb.reservations "ZFA04Y" (cancelled sampleReservation) }) ∧
    (cancelled sampleReservation).payment_history =
      [{ payment_id := "cc1", amount := 120 }, { payment_id := "gc1", amount := 30 },
       { payment_id := "cc1", amount := -120 }, { payment_id := "gc1", amount := -30 }] ∧
    cancel_reservation "nothere" cancelDb =
      (.err "Error: reservation not found", cancelDb) :=
  ⟨((cancel_reservation_spec "ZFA04Y" cancelDb).2.2 sampleReservation (by decide)).1,
   by decide,
   (cancel_reservation_spec "nothere" cancelDb).1 (by decide)⟩

theorem processLegs_err (fl : AList Flight) (cabin : String) (npass : Nat) :
    ∀ (legs : List FlightRef) (acc : List ResFlight) (t : Int) (e : String),
      processLegs fl cabin npass legs acc t = .err e → isErrorString e := by
  intro legs
  induction legs with
  | nil =>
      intro acc t e h
      simp [processLegs] at h
  | cons f rest ih =>
      intro acc t e h
      have base1 : isErrorString "Error: flight " := ⟨" flight ", by decide⟩
      have base2 : isErrorString "Error: not enough seats on flight " :=
        ⟨" not enough seats on flight ", by decide⟩
      cases hf : alookup fl f.flight_number with
      | none =>
          simp only [processLegs, hf, PyExcept.err.injEq] at h
          subst h
          exact errStr_append (errStr_append base1 f.flight_number) " not found"
      | some fd =>
          cases hd : alookup fd.dates f.date with
          | none =>
              simp only [processLegs, hf, hd, PyExcept.err.injEq] at h
              subst h
              exact errStr_append (errStr_append
                (errStr_append base1 f.flight_number) " not found on date ") f.date
          | some di =>
              by_cases hst : di.status = "available"
              · cases hs : alookup di.available_seats cabin with
                | none => simp [processLegs, hf, hd, hst, hs] at h
                | some seats =>
                    by_cases hlt : seats < (npass : Int)
                    · simp only [processLegs, hf, hd, hst, hs, if_pos hlt, if_true,
                        PyExcept.err.injEq] at h
                      subst h
                      exact errStr_append base2 f.flight_number
                    · cases hp : alookup di.prices cabin with
                      | none => simp [processLegs, hf, hd, hst, hs, hlt, hp] at h
                      | some price =>
                          simp [processLegs, hf, hd, hst, hs, hlt, hp] at h
                          exact ih _ _ _ h
              · simp only [processLegs, hf, hd] at h
                rw [if_neg hst] at h
                rw [PyExcept.err.injEq] at h
                subst h
                exact errStr_append (errStr_append
                  (errStr_append base1 f.flight_number) " not available on date ") f.date

theorem processLegs_ne_exn (fl : AList Flight) (cabin : String) (npass : Nat)
    (hcab : cabinPresent fl cabin) :
    ∀ (legs : List FlightRef) (acc : List ResFlight) (t : Int),
      processLegs fl cabin npass legs acc t ≠ .exn := by
  intro legs
  induction legs with
  | nil =>
      intro acc t h
      simp [processLegs] at h
  | cons f rest ih =>
      intro acc t h
      cases hf : alookup fl f.flight_number with
      | none => simp [processLegs, hf] at h
      | some fd =>
          cases hd : alookup fd.dates f.date with
          | none => simp [processLegs, hf, hd] at h
          | some di =>
              have hc := hcab (f.flight_number, fd) (alookup_mem hf) (f.date, di) (alookup_mem hd)
              obtain ⟨seats, hs⟩ := Option.isSome_iff_exists.mp hc.1
              obtain ⟨price, hp⟩ := Option.isSome_iff_exists.mp hc.2
              by_cases hst : di.status = "available"
              · by_cases hlt : seats < (npass : Int)
                · simp [processLegs, hf, hd, hst, hs, hlt] at h
                · simp [processLegs, hf, hd, hst, hs, hlt, hp] at h
                  exact ih _ _ h
              · simp only [processLegs, hf, hd] at h
                rw [if_neg hst] at h
                cases h

theorem processLegs_ok (fl : AList Flight) (cabin : String) (npass : Nat) :
    ∀ (legs : List FlightRef) (acc : List ResFlight) (t : Int)
      (res : List ResFlight) (total : Int),
      processLegs fl cabin npass legs acc t = .ok (res, total) →
      ∃ ls, res = acc ++ ls ∧ List.Forall₂ (legOk fl cabin npass) legs ls ∧
        total = t + (ls.map ResFlight.price).sum * (npass : Int) := by
  intro legs
  induction legs with
  | nil =>
      intro acc t res total h
      simp only [processLegs, PyExcept.ok.injEq, Prod.mk.injEq] at h
      exact ⟨[], by simp [h.1.symm], List.Forall₂.nil, by simp [h.2.symm]⟩
  | cons f rest ih =>
      intro acc t res total h
      cases hf : alookup fl f.flight_number with
      | none => simp [processLegs, hf] at h
      | some fd =>
          cases hd : alookup fd.dates f.date with
          | none => simp [processLegs, hf, hd] at h
          | some di =>
              by_cases hst : di.status = "available"
              · cases hs : alookup di.available_seats cabin with
                | none => simp [processLegs, hf, hd, hst, hs] at h
                | some seats =>
                    by_cases hlt : seats < (npass : Int)
                    · simp [processLegs, hf, hd, hst, hs, hlt] at h
                    · cases hp : alookup di.prices cabin with
                      | none => simp [processLegs, hf, hd, hst, hs, hlt, hp] at h
                      | some price =>
                          simp [processLegs, hf, hd, hst, hs, hlt, hp] at h
                          obtain ⟨ls, hres, hfa, htot⟩ := ih _ _ _ _ h
                          refine ⟨{ flight_number := f.flight_number, date := f.date, price := price, origin := fd.origin, destination := fd.destination } :: ls, ?_, ?_, ?_⟩
                          · rw [hres]
                            simp
                          · refine List.Forall₂.cons ?_ hfa
                            exact ⟨fd, di, seats, hf, hd, hst, hs, Int.not_lt.mp hlt,
                              hp, rfl, rfl, rfl, rfl⟩
                          · rw [htot]
                            simp only [List.map_cons, List.sum_cons]
                            ring
              · simp only [processLegs, hf, hd] at h
                rw [if_neg hst] at h
                cases h

theorem validatePayments_err :
    ∀ (pms : List PaymentInput) (m : AList PaymentMethod) (e : String),
      validatePayments pms m = some e → isErrorString e := by
  intro pms
  induction pms with
  | nil =>
      intro m e h
      simp [validatePayments] at h
  | cons pm rest ih =>
      intro m e h
      cases hl : alookup m pm.payment_id with
      | none =>
          simp only [validatePayments, hl, Option.some.injEq] at h
          subst h
          exact errStr_append
            (errStr_append ⟨" payment method ", by decide⟩ pm.payment_id) " not found"
      | some s =>
          by_cases hb : (s.source = "gift_card" ∨ s.source = "certificate") ∧ s.amount < pm.amount
          · simp only [validatePayments, hl, if_pos hb, Option.some.injEq] at h
            subst h
            exact errStr_append
              ⟨" not enough balance in payment method ", by decide⟩ pm.payment_id
          · simp only [validatePayments, hl, if_neg hb] at h
            exact ih _ _ h

theorem validatePayments_present :
    ∀ (pms : List PaymentInput) (m : AList PaymentMethod),
      validatePayments pms m = none →
      ∀ pm ∈ pms, ∃ s, alookup m pm.payment_id = some s := by
  intro pms
  induction pms with
  | nil =>
      intro m _ pm hpm
      simp at hpm
  | cons pm0 rest ih =>
      intro m h pm hpm
      cases hl : alookup m pm0.payment_id with
      | none => simp [validatePayments, hl] at h
      | some s =>
          rcases List.mem_cons.mp hpm with rfl | hpm'
          · exact ⟨s, hl⟩
          · by_cases hb : (s.source = "gift_card" ∨ s.source = "certificate") ∧
                s.amount < pm0.amount
            · simp [validatePayments, hl, hb] at h
            · simp only [validatePayments, hl, if_neg hb] at h
              exact ih _ h pm hpm'

theorem declaredFor_cons (pm : PaymentInput) (rest : List PaymentInput) (pid : String) :
    declaredFor (pm :: rest) pid =
      (if pm.payment_id == pid then pm.amount else 0) + declaredFor rest pid := by
  by_cases h : pm.payment_id == pid
  · simp [declaredFor, List.filter_cons, h]
  · simp [declaredFor, List.filter_cons, h]

theorem applyPayments_preserves_none :
    ∀ (pms : List PaymentInput) (m m' : AList PaymentMethod) (x : String),
      alookup m x = none → applyPayments pms m = .ok m' → alookup m' x = none := by
  intro pms
  induction pms with
  | nil =>
      intro m m' x hx h
      simp only [applyPayments, Except.ok.injEq] at h
      subst h
      exact hx
  | cons pm rest ih =>
      intro m m' x hx h
      cases hl : alookup m pm.payment_id with
      | none => simp [applyPayments, hl] at h
      | some s =>
          by_cases hx0 : x = pm.payment_id
          · subst hx0
            rw [hx] at hl
            cases hl
          · by_cases hg : s.source = "gift_card"
            · simp only [applyPayments, hl, if_pos hg] at h
              refine ih _ _ _ ?_ h
              rw [alookup_aupdate_ne _ _ _ _ hx0]
              exact hx
            · by_cases hc : s.source = "certificate"
              · simp only [applyPayments, hl, if_neg hg, if_pos hc] at h
                refine ih _ _ _ ?_ h
                rw [alookup_aerase_ne _ _ _ hx0]
                exact hx
              · simp only [applyPayments, hl, if_neg hg, if_neg hc] at h
                exact ih _ _ _ hx h

theorem applyPayments_no_crash (m : AList PaymentMethod) (pms : List PaymentInput)
    (hco : certOnce m pms) :
    ∀ (rest : List PaymentInput) (m' : AList PaymentMethod),
      rest.Sublist pms →
      (∀ pm ∈ rest, ∃ s' s, alookup m' pm.payment_id = some s' ∧
         alookup m pm.payment_id = some s ∧ s'.source = s.source) →
      ∃ m'', applyPayments rest m' = .ok m'' := by
  intro rest
  induction rest with
  | nil =>
      intro m' _ _
      exact ⟨m', rfl⟩
  | cons pm0 rest' ih =>
      intro m' hsub hpres
      obtain ⟨s', s, hl', hl, hsrc⟩ := hpres pm0 (List.mem_cons_self pm0 rest')
      have hsub' : rest'.Sublist pms := (List.sublist_cons_self pm0 rest').trans hsub
      by_cases hg : s'.source = "gift_card"
      · have step : applyPayments (pm0 :: rest') m' =
            applyPayments rest' (aupdate m' pm0.payment_id { s' with amount := s'.amount - pm0.amount }) := by
          simp only [applyPayments, hl', if_pos hg]
        rw [step]
        apply ih _ hsub'
        intro pm hpm
        obtain ⟨t', t, ht', ht, hts⟩ := hpres pm (List.mem_cons_of_mem pm0 hpm)
        by_cases hpid : pm.payment_id = pm0.payment_id
        · rw [hpid]
          exact ⟨{ s' with amount := s'.amount - pm0.amount }, s,
            alookup_aupdate_self _ _ _, hl, hsrc⟩
        · rw [alookup_aupdate_ne _ _ _ _ hpid]
          exact ⟨t', t, ht', ht, hts⟩
      · by_cases hc : s'.source = "certificate"
        · have step : applyPayments (pm0 :: rest') m' =
              applyPayments rest' (aerase m' pm0.payment_id) := by
            simp only [applyPayments, hl', if_neg hg, if_pos hc]
          rw [step]
          apply ih _ hsub'
          intro pm hpm
          obtain ⟨t', t, ht', ht, hts⟩ := hpres pm (List.mem_cons_of_mem pm0 hpm)
          have hpid : pm.payment_id ≠ pm0.payment_id := by
            intro heq
            have hmem_m : (pm0.payment_id, s) ∈ m := alookup_mem hl
            have hscert : s.source = "certificate" := by
              rw [← hsrc]
              exact hc
            have hcount := hco (pm0.payment_id, s) hmem_m hscert
            dsimp only at hcount
            have hpos : 0 < rest'.countP (fun q => q.payment_id == pm0.payment_id) :=
              List.countP_pos_iff.mpr ⟨pm, hpm, by simp [heq]⟩
            have hpm0 : (fun q : PaymentInput => q.payment_id == pm0.payment_id) pm0 = true := by
              simp
            have h2 : 2 ≤ (pm0 :: rest').countP (fun q => q.payment_id == pm0.payment_id) := by
              rw [List.countP_cons, if_pos hpm0]
              omega
            have hle := List.Sublist.countP_le (fun q => q.payment_id == pm0.payment_id) hsub
            omega
          rw [alookup_aerase_ne _ _ _ hpid]
          exact ⟨t', t, ht', ht, hts⟩
        · have step : applyPayments (pm0 :: rest') m' = applyPayments rest' m' := by
            simp only [applyPayments, hl', if_neg hg, if_neg hc]
          rw [step]
          exact ih _ hsub' (fun pm hpm => hpres pm (List.mem_cons_of_mem pm0 hpm))

theorem applyPayments_lookup :
    ∀ (pms : List PaymentInput) (m m' : AList PaymentMethod),
      (akeys m).Nodup →
      applyPayments pms m = .ok m' →
      ∀ pid s, alookup m pid = some s →
        alookup m' pid =
          (if s.source = "certificate" then
             (if pid ∈ pms.map PaymentInput.payment_id then none else some s)
           else if s.source = "gift_card" then
             some { s with amount := s.amount - declaredFor pms pid }
           else some s) := by
  intro pms
  induction pms with
  | nil =>
      intro m m' hnd h pid s hs
      simp only [applyPayments, Except.ok.injEq] at h
      subst h
      by_cases h1 : s.source = "certificate"
      · simp [h1, hs]
      · by_cases h2 : s.source = "gift_card"
        · rw [if_neg h1, if_pos h2, hs]
          simp [declaredFor]
        · rw [if_neg h1, if_neg h2, hs]
  | cons pm0 rest ih =>
      intro m m' hnd h pid s hs
      cases hl0 : alookup m pm0.payment_id with
      | none => simp [applyPayments, hl0] at h
      | some s0 =>
          by_cases hpid : pid = pm0.payment_id
          · have hss : s0 = s := by
              rw [hpid, hl0] at hs
              exact Option.some_inj.mp hs
            subst hss
            rw [hpid]
            by_cases hg : s0.source = "gift_card"
            · simp only [applyPayments, hl0, if_pos hg] at h
              have hnd' := akeys_nodup_aupdate (m := m) pm0.payment_id
                ({ s0 with amount := s0.amount - pm0.amount }) hnd
              have hstep := ih _ _ hnd' h pm0.payment_id
                { s0 with amount := s0.amount - pm0.amount } (alookup_aupdate_self _ _ _)
              rw [hstep]
              simp [hg, (by decide : ¬("gift_card" : String) = "certificate"), declaredFor_cons]
              ring
            · by_cases hc : s0.source = "certificate"
              · simp only [applyPayments, hl0, if_neg hg, if_pos hc] at h
                have hnone : alookup (aerase m pm0.payment_id) pm0.payment_id = none :=
                  alookup_aerase_self hnd
                have hfin : alookup m' pm0.payment_id = none :=
                  applyPayments_preserves_none rest _ _ _ hnone h
                rw [hfin]
                simp [hc]
              · simp only [applyPayments, hl0, if_neg hg, if_neg hc] at h
                have hstep := ih _ _ hnd h pm0.payment_id s0 hl0
                rw [hstep]
                simp [hg, hc, declaredFor_cons]
          · by_cases hg : s0.source = "gift_card"
            · simp only [applyPayments, hl0, if_pos hg] at h
              have hnd' := akeys_nodup_aupdate (m := m) pm0.payment_id
                ({ s0 with amount := s0.amount - pm0.amount }) hnd
              have hstep := ih _ _ hnd' h pid s
                (by rw [alookup_aupdate_ne _ _ _ _ hpid]; exact hs)
              rw [hstep]
              simp [hpid, Ne.symm hpid, declaredFor_cons]
            · by_cases hc : s0.source = "certificate"
              · simp only [applyPayments, hl0, if_neg hg, if_pos hc] at h
                have hnd' := akeys_nodup_aerase (m := m) pm0.payment_id hnd
                have hstep := ih _ _ hnd' h pid s
                  (by rw [alookup_aerase_ne _ _ _ hpid]; exact hs)
                rw [hstep]
                simp [hpid, Ne.symm hpid, declaredFor_cons]
              · simp only [applyPayments, hl0, if_neg hg, if_neg hc] at h
                have hstep := ih _ _ hnd h pid s hs
                rw [hstep]
                simp [hpid, Ne.symm hpid, declaredFor_cons]

/-- Claim C10: every call to book_reservation, successful or not, leaves
the flights collection of the database unchanged: no available_seats count
is ever decremented and no per-date flight record is modified. -/
theorem book_reservation_preserves_flights
    (user_id origin destination flight_type cabin : String)
    (flights : List FlightRef) (passengers : List Passenger)
    (payment_methods : List PaymentInput)
    (total_baggages nonfree_baggages : Nat) (insurance : String) (db : Database) :
    ((book_reservation user_id origin destination flight_type cabin flights
        passengers payment_methods total_baggages nonfree_baggages insurance db).2).flights =
      db.flights := by
  unfold book_reservation
  dsimp only
  repeat' split
  all_goals rfl

/-- Claim C1, amended: provided the requested cabin is present in the
seats and prices tables of every flight date (as the schema guarantees)
and no stored certificate is declared more than once in the payment list,
book_reservation never raises, every error return starts with Error: and
leaves the database unchanged, every success stores the returned
reservation, and a declared payment sum different from the computed total
always produces an error return.  The unamended claim fails on a payment
list declaring the same certificate twice, which passes every validation
and then raises a KeyError halfway through the mutation. -/
theorem book_reservation_atomic
    (user_id origin destination flight_type cabin : String)
    (flights : List FlightRef) (passengers : List Passenger)
    (payment_methods : List PaymentInput)
    (total_baggages nonfree_baggages : Nat) (insurance : String) (db : Database)
    (hcab : cabinPresent db.flights cabin)
    (hcert : certOnceUser (alookup db.users user_id) payment_methods) :
    (book_reservation user_id origin destination flight_type cabin flights
        passengers payment_methods total_baggages nonfree_baggages insurance db).1 ≠
      PyExcept.exn ∧
    (∀ e db', book_reservation user_id origin destination flight_type cabin flights
        passengers payment_methods total_baggages nonfree_baggages insurance db =
          (.err e, db') → db' = db ∧ isErrorString e) ∧
    (∀ res db', book_reservation user_id origin destination flight_type cabin flights
        passengers payment_methods total_baggages nonfree_baggages insurance db =
          (.ok res, db') → alookup db'.reservations res.reservation_id = some res) ∧
    (∀ u legs base, alookup db.users user_id = some u →
       processLegs db.flights cabin passengers.length flights [] 0 = .ok (legs, base) →
       paymentsSum payment_methods ≠
         base + (if insurance = "yes" then 30 * (passengers.length : Int) else 0)
           + 50 * (nonfree_baggages : Int) →
       ∃ e, (book_reservation user_id origin destination flight_type cabin flights
         passengers payment_methods total_baggages nonfree_baggages insurance db).1 =
           .err e) := by
  cases hu : alookup db.users user_id with
  | none =>
      have hb : book_reservation user_id origin destination flight_type cabin flights
          passengers payment_methods total_baggages nonfree_baggages insurance db =
            (.err "Error: user not found", db) := by
        simp [book_reservation, hu]
      refine ⟨?_, ?_, ?_, ?_⟩
      · rw [hb]
        simp
      · intro e db' h
        rw [hb] at h
        injection h with h1 h2
        injection h1 with h3
        exact ⟨h2.symm, h3 ▸ (⟨" user not found", by decide⟩ : isErrorString "Error: user not found")⟩
      · intro res db' h
        rw [hb] at h
        injection h with h1 _
        cases h1
      · intro u legs base hu' _ _
        cases hu'
  | some u =>
      have hco : certOnce u.payment_methods payment_methods := by
        rw [hu] at hcert
        exact hcert
      cases hlegs : processLegs db.flights cabin passengers.length flights [] 0 with
      | exn =>
          exact absurd hlegs
            (processLegs_ne_exn db.flights cabin passengers.length hcab flights [] 0)
      | err e0 =>
          have hb : book_reservation user_id origin destination flight_type cabin flights
              passengers payment_methods total_baggages nonfree_baggages insurance db =
                (.err e0, db) := by
            simp [book_reservation, hu, hlegs]
          have herr : isErrorString e0 :=
            processLegs_err db.flights cabin passengers.length flights [] 0 e0 hlegs
          refine ⟨?_, ?_, ?_, ?_⟩
          · rw [hb]
            simp
          · intro e db' h
            rw [hb] at h
            injection h with h1 h2
            injection h1 with h3
            exact ⟨h2.symm, h3 ▸ herr⟩
          · intro res db' h
            rw [hb] at h
            injection h with h1 _
            cases h1
          · intro u' legs base _ hl' _
            cases hl'
      | ok p =>
          obtain ⟨legs, base⟩ := p
          cases hval : validatePayments payment_methods u.payment_methods with
          | some e0 =>
              have hb : book_reservation user_id origin destination flight_type cabin flights
                  passengers payment_methods total_baggages nonfree_baggages insurance db =
                    (.err e0, db) := by
                simp [book_reservation, hu, hlegs, hval]
              have herr : isErrorString e0 :=
                validatePayments_err payment_methods u.payment_methods e0 hval
              refine ⟨?_, ?_, ?_, ?_⟩
              · rw [hb]
                simp
              · intro e db' h
                rw [hb] at h
                injection h with h1 h2
                injection h1 with h3
                exact ⟨h2.symm, h3 ▸ herr⟩
              · intro res db' h
                rw [hb] at h
                injection h with h1 _
                cases h1
              · intro u' legs' base' _ _ _
                exact ⟨e0, by rw [hb]⟩
          | none =>
              by_cases hsum : paymentsSum payment_methods =
                  base + (if insurance = "yes" then 30 * (passengers.length : Int) else 0)
                    + 50 * (nonfree_baggages : Int)
              · have hpres := validatePayments_present payment_methods u.payment_methods hval
                obtain ⟨m'', happ⟩ := applyPayments_no_crash u.payment_methods payment_methods
                  hco payment_methods u.payment_methods (List.Sublist.refl _)
                  (fun pm hpm => by
                    obtain ⟨s, hs⟩ := hpres pm hpm
                    exact ⟨s, s, hs, hs, rfl⟩)
                have hb : book_reservation user_id origin destination flight_type cabin flights
                    passengers payment_methods total_baggages nonfree_baggages insurance db =
                      (.ok { reservation_id := allocateReservationId db.reservations,
                             user_id := user_id, origin := origin, destination := destination,
                             flight_type := flight_type, cabin := cabin, flights := legs,
                             passengers := passengers, payment_history := payment_methods,
                             created_at := "2024-05-15T15:00:00",
                             total_baggages := total_baggages,
                             nonfree_baggages := nonfree_baggages, insurance := insurance,
                             status := none },
                       { db with
                         users := aupdate db.users user_id
                           { u with
                             payment_methods := m'',
                             reservations := u.reservations ++
                               [allocateReservationId db.reservations] },
                         reservations := aupdate db.reservations
                           (allocateReservationId db.reservations)
                           { reservation_id := allocateReservationId db.reservations,
                             user_id := user_id, origin := origin,
                             destination := destination, flight_type := flight_type,
                             cabin := cabin, flights := legs, passengers := passengers,
                             payment_history := payment_methods,
                             created_at := "2024-05-15T15:00:00",
                             total_baggages := total_baggages,
                             nonfree_baggages := nonfree_baggages,
                             insurance := insurance, status := none } }) := by
                  simp [book_reservation, hu, hlegs, hval, hsum, happ]
                refine ⟨?_, ?_, ?_, ?_⟩
                · rw [hb]
                  simp
                · intro e db' h
                  rw [hb] at h
                  injection h with h1 _
                  cases h1
                · intro res db' h
                  rw [hb] at h
                  injection h with h1 h2
                  injection h1 with h3
                  subst h3
                  subst h2
                  exact alookup_aupdate_self _ _ _
                · intro u' legs' base' hu' hl' hne
                  injection hl' with hl''
                  injection hl'' with hla hlb
                  subst hlb
                  exact absurd hsum hne
              · have hb : book_reservation user_id origin destination flight_type cabin flights
                    passengers payment_methods total_baggages nonfree_baggages insurance db =
                      (.err ("Error: payment amount does not add up, total price is " ++
                         toString (base +
                           (if insurance = "yes" then 30 * (passengers.length : Int) else 0)
                             + 50 * (nonfree_baggages : Int)) ++
                         ", but paid " ++ toString (paymentsSum payment_methods)), db) := by
                  simp [book_reservation, hu, hlegs, hval, hsum]
                have herr : isErrorString ("Error: payment amount does not add up, total price is " ++
                    toString (base +
                      (if insurance = "yes" then 30 * (passengers.length : Int) else 0)
                        + 50 * (nonfree_baggages : Int)) ++
                    ", but paid " ++ toString (paymentsSum payment_methods)) :=
                  errStr_append (errStr_append (errStr_append
                    ⟨" payment amount does not add up, total price is ", by decide⟩ _) _) _
                refine ⟨?_, ?_, ?_, ?_⟩
                · rw [hb]
                  simp
                · intro e db' h
                  rw [hb] at h
                  injection h with h1 h2
                  injection h1 with h3
                  exact ⟨h2.symm, h3 ▸ herr⟩
                · intro res db' h
                  rw [hb] at h
                  injection h with h1 _
                  cases h1
                · intro u' legs' base' hu' hl' hne
                  exact ⟨_, by rw [hb]⟩

theorem book_reservation_atomic_witness :
    (book_reservation "sara" "SFO" "JFK" "one_way" "economy" sampleLegs samplePassengers
        [{ payment_id := "gc1", amount := 90 }] 1 0 "no" sampleDb).1 ≠ PyExcept.exn :=
  (book_reservation_atomic "sara" "SFO" "JFK" "one_way" "economy" sampleLegs samplePassengers
    [{ payment_id := "gc1", amount := 90 }] 1 0 "no" sampleDb (by decide) (by decide)).1

theorem book_reservation_dup_cert_not_atomic :
    (book_reservation "mia" "SFO" "JFK" "one_way" "economy" sampleLegs samplePassengers
        miaPayments 0 0 "no" miaDb).1 = PyExcept.exn ∧
    (book_reservation "mia" "SFO" "JFK" "one_way" "economy" sampleLegs samplePassengers
        miaPayments 0 0 "no" miaDb).2 ≠ miaDb ∧
    (book_reservation "mia" "SFO" "JFK" "one_way" "economy" sampleLegs samplePassengers
        miaPayments 0 0 "no" miaDb).2.reservations = miaDb.reservations := by
  refine ⟨by decide, by decide, by decide⟩

/-- Claim C3: every successful book_reservation call prices the booking
as the sum over the legs of that leg date cabin price times the passenger
count, plus a flat 30 per passenger exactly when insurance is yes, plus 50
per non-free baggage item, and the declared payment amounts sum to exactly
this total. -/
theorem book_reservation_total_price
    (user_id origin destination flight_type cabin : String)
    (flights : List FlightRef) (passengers : List Passenger)
    (payment_methods : List PaymentInput)
    (total_baggages nonfree_baggages : Nat) (insurance : String) (db : Database)
    (res : Reservation) (db' : Database)
    (h : book_reservation user_id origin destination flight_type cabin flights
        passengers payment_methods total_baggages nonfree_baggages insurance db =
          (.ok res, db')) :
    ∃ legs base,
      processLegs db.flights cabin passengers.length flights [] 0 = .ok (legs, base) ∧
      res.flights = legs ∧
      List.Forall₂ (legOk db.flights cabin passengers.length) flights legs ∧
      base = (legs.map ResFlight.price).sum * (passengers.length : Int) ∧
      paymentsSum payment_methods =
        base + (if insurance = "yes" then 30 * (passengers.length : Int) else 0)
          + 50 * (nonfree_baggages : Int) := by
  cases hu : alookup db.users user_id with
  | none => simp [book_reservation, hu] at h
  | some u =>
      cases hlegs : processLegs db.flights cabin passengers.length flights [] 0 with
      | err e0 => simp [book_reservation, hu, hlegs] at h
      | exn => simp [book_reservation, hu, hlegs] at h
      | ok p =>
          obtain ⟨legs, base⟩ := p
          cases hval : validatePayments payment_methods u.payment_methods with
          | some e0 => simp [book_reservation, hu, hlegs, hval] at h
          | none =>
              by_cases hsum : paymentsSum payment_methods =
                  base + (if insurance = "yes" then 30 * (passengers.length : Int) else 0)
                    + 50 * (nonfree_baggages : Int)
              · cases happ : applyPayments payment_methods u.payment_methods with
                | error mm => simp [book_reservation, hu, hlegs, hval, hsum, happ] at h
                | ok mm =>
                    simp only [book_reservation, hu, hlegs, hval, happ] at h
                    rw [if_neg (not_not_intro hsum)] at h
                    obtain ⟨ls, hres_eq, hfa, htot⟩ :=
                      processLegs_ok db.flights cabin passengers.length flights [] 0 legs base hlegs
                    simp only [List.nil_append] at hres_eq
                    subst hres_eq
                    injection h with h1 h2
                    injection h1 with h3
                    refine ⟨legs, base, rfl, ?_, hfa, by simpa using htot, hsum⟩
                    rw [← h3]
              · simp [book_reservation, hu, hlegs, hval, hsum] at h

theorem book_reservation_total_price_witness :
    ∃ legs base,
      processLegs sampleDb.flights "economy" samplePassengers.length sampleLegs [] 0 =
        .ok (legs, base) ∧
      sampleBooked.flights = legs ∧
      List.Forall₂ (legOk sampleDb.flights "economy" samplePassengers.length) sampleLegs legs ∧
      base = (legs.map ResFlight.price).sum * (samplePassengers.length : Int) ∧
      paymentsSum [{ payment_id := "gc1", amount := 100 }] =
        base + (if ("no" : String) = "yes" then 30 * (samplePassengers.length : Int) else 0)
          + 50 * ((0 : Nat) : Int) :=
  book_reservation_total_price "sara" "SFO" "JFK" "one_way" "economy" sampleLegs
    samplePassengers [{ payment_id := "gc1", amount := 100 }] 1 0 "no" sampleDb
    sampleBooked sampleBookedDb (by decide)

/-- Claim C4, amended: when all validations pass and no stored
certificate is declared more than once, book_reservation deducts each
declared amount from the corresponding gift card, removes each declared
certificate entirely, stores the new reservation under the allocated id,
appends that id to the user reservation list, and returns the full created
record (JSON serialization abstracted to the record).  The unamended claim
fails on a duplicate certificate declaration, which passes all validations
yet raises before the reservation is inserted. -/
theorem book_reservation_success_effects
    (user_id origin destination flight_type cabin : String)
    (flights : List FlightRef) (passengers : List Passenger)
    (payment_methods : List PaymentInput)
    (total_baggages nonfree_baggages : Nat) (insurance : String) (db : Database)
    (u : User) (legs : List ResFlight) (base : Int)
    (hu : alookup db.users user_id = some u)
    (hnd : (akeys u.payment_methods).Nodup)
    (hco : certOnce u.payment_methods payment_methods)
    (hlegs : processLegs db.flights cabin passengers.length flights [] 0 = .ok (legs, base))
    (hval : validatePayments payment_methods u.payment_methods = none)
    (hsum : paymentsSum payment_methods =
      base + (if insurance = "yes" then 30 * (passengers.length : Int) else 0)
        + 50 * (nonfree_baggages : Int)) :
    ∃ m', applyPayments payment_methods u.payment_methods = .ok m' ∧
      book_reservation user_id origin destination flight_type cabin flights
          passengers payment_methods total_baggages nonfree_baggages insurance db =
        (.ok { reservation_id := allocateReservationId db.reservations,
               user_id := user_id, origin := origin, destination := destination,
               flight_type := flight_type, cabin := cabin, flights := legs,
               passengers := passengers, payment_history := payment_methods,
               created_at := "2024-05-15T15:00:00", total_baggages := total_baggages,
               nonfree_baggages := nonfree_baggages, insurance := insurance,
               status := none },
         { db with
           users := aupdate db.users user_id
             { u with
               payment_methods := m',
               reservations := u.reservations ++ [allocateReservationId db.reservations] },
           reservations := aupdate db.reservations (allocateReservationId db.reservations)
             { reservation_id := allocateReservationId db.reservations,
               user_id := user_id, origin := origin, destination := destination,
               flight_type := flight_type, cabin := cabin, flights := legs,
               passengers := passengers, payment_history := payment_methods,
               created_at := "2024-05-15T15:00:00", total_baggages := total_baggages,
               nonfree_baggages := nonfree_baggages, insurance := insurance,
               status := none } }) ∧
      (∀ pid s, alookup u.payment_methods pid = some s →
        (s.source = "gift_card" →
           alookup m' pid = some { s with amount := s.amount - declaredFor payment_methods pid }) ∧
        (s.source = "certificate" → pid ∈ payment_methods.map PaymentInput.payment_id →
           alookup m' pid = none) ∧
        (s.source = "certificate" → pid ∉ payment_methods.map PaymentInput.payment_id →
           alookup m' pid = some s) ∧
        (s.source ≠ "gift_card" → s.source ≠ "certificate" → alookup m' pid = some s)) := by
  have hpres := validatePayments_present payment_methods u.payment_methods hval
  obtain ⟨m', happ⟩ := applyPayments_no_crash u.payment_methods payment_methods hco
    payment_methods u.payment_methods (List.Sublist.refl _)
    (fun pm hpm => by
      obtain ⟨s, hs⟩ := hpres pm hpm
      exact ⟨s, s, hs, hs, rfl⟩)
  refine ⟨m', happ, ?_, ?_⟩
  · simp [book_reservation, hu, hlegs, hval, hsum, happ]
  · intro pid s hs
    have hlk := applyPayments_lookup payment_methods u.payment_methods m' hnd happ pid s hs
    refine ⟨?_, ?_, ?_, ?_⟩
    · intro hg
      have hnc : ¬s.source = "certificate" := by
        rw [hg]
        decide
      rw [hlk, if_neg hnc, if_pos hg]
    · intro hc hmem
      rw [hlk, if_pos hc, if_pos hmem]
    · intro hc hmem
      rw [hlk, if_pos hc, if_neg hmem]
    · intro hg hc
      rw [hlk, if_neg hc, if_neg hg]

theorem book_reservation_success_effects_witness :
    (book_reservation "sara" "SFO" "JFK" "one_way" "economy" sampleLegs samplePassengers
        [{ payment_id := "gc1", amount := 100 }] 1 0 "no" sampleDb).1 =
      PyExcept.ok sampleBooked := by
  obtain ⟨m', happ, hbook, hpt⟩ := book_reservation_success_effects "sara" "SFO" "JFK"
    "one_way" "economy" sampleLegs samplePassengers [{ payment_id := "gc1", amount := 100 }]
    1 0 "no" sampleDb sampleUser sampleBooked.flights 100 (by decide) (by decide) (by decide)
    (by decide) (by decide) (by decide)
  rw [hbook]
  rfl

theorem book_reservation_validated_but_unapplied :
    validatePayments leePayments leeUser.payment_methods = none ∧
    processLegs leeDb.flights "economy" 1 sampleLegs [] 0 =
      .ok ([{ flight_number := "HAT001", date := "2024-05-20", price := 100,
              origin := "SFO", destination := "JFK" }], 100) ∧
    paymentsSum leePayments = 100 ∧
    (book_reservation "lee" "SFO" "JFK" "one_way" "economy" sampleLegs samplePassengers
        leePayments 0 0 "no" leeDb).1 = PyExcept.exn ∧
    alookup (book_reservation "lee" "SFO" "JFK" "one_way" "economy" sampleLegs
        samplePassengers leePayments 0 0 "no" leeDb).2.reservations "HATHAT" = none := by
  refine ⟨by decide, by decide, by decide, by decide, by decide⟩

/-- Claim C5, amended: book_reservation allocates the first unused of
the fixed ids HATHAT then HATHAU, and otherwise uses HATHAV
unconditionally; when every id of the pool is taken it does not return an
error but books under HATHAV, replacing the reservation stored there. -/
theorem book_reservation_id_allocation
    (user_id origin destination flight_type cabin : String)
    (flights : List FlightRef) (passengers : List Passenger)
    (payment_methods : List PaymentInput)
    (total_baggages nonfree_baggages : Nat) (insurance : String) (db : Database) :
    ((alookup db.reservations "HATHAT" = none →
        allocateReservationId db.reservations = "HATHAT") ∧
     (∀ r, alookup db.reservations "HATHAT" = some r →
        alookup db.reservations "HATHAU" = none →
        allocateReservationId db.reservations = "HATHAU") ∧
     (∀ r r', alookup db.reservations "HATHAT" = some r →
        alookup db.reservations "HATHAU" = some r' →
        allocateReservationId db.reservations = "HATHAV")) ∧
    (∀ res db', book_reservation user_id origin destination flight_type cabin flights
        passengers payment_methods total_baggages nonfree_baggages insurance db =
          (.ok res, db') →
       res.reservation_id = allocateReservationId db.reservations ∧
       alookup db'.reservations (allocateReservationId db.reservations) = some res) := by
  constructor
  · refine ⟨?_, ?_, ?_⟩
    · intro h
      simp [allocateReservationId, h]
    · intro r h1 h2
      simp [allocateReservationId, h1, h2]
    · intro r r' h1 h2
      simp [allocateReservationId, h1, h2]
  · intro res db' h
    cases hu : alookup db.users user_id with
    | none => simp [book_reservation, hu] at h
    | some u =>
        cases hlegs : processLegs db.flights cabin passengers.length flights [] 0 with
        | err e0 => simp [book_reservation, hu, hlegs] at h
        | exn => simp [book_reservation, hu, hlegs] at h
        | ok p =>
            obtain ⟨legs, base⟩ := p
            cases hval : validatePayments payment_methods u.payment_methods with
            | some e0 => simp [book_reservation, hu, hlegs, hval] at h
            | none =>
                by_cases hsum : paymentsSum payment_methods =
                    base + (if insurance = "yes" then 30 * (passengers.length : Int) else 0)
                      + 50 * (nonfree_baggages : Int)
                · cases happ : applyPayments payment_methods u.payment_methods with
                  | error mm => simp [book_reservation, hu, hlegs, hval, hsum, happ] at h
                  | ok mm =>
                      simp only [book_reservation, hu, hlegs, hval, happ] at h
                      rw [if_neg (not_not_intro hsum)] at h
                      injection h with h1 h2
                      injection h1 with h3
                      subst h3
                      subst h2
                      exact ⟨rfl, alookup_aupdate_self _ _ _⟩
                · simp [book_reservation, hu, hlegs, hval, hsum] at h

theorem book_reservation_id_allocation_witness :
    allocateReservationId sampleDb.reservations = "HATHAT" ∧
    sampleBooked.reservation_id = allocateReservationId sampleDb.reservations ∧
    alookup sampleBookedDb.reservations (allocateReservationId sampleDb.reservations) =
      some sampleBooked := by
  obtain ⟨h1, h2⟩ := (book_reservation_id_allocation "sara" "SFO" "JFK" "one_way" "economy"
    sampleLegs samplePassengers [{ payment_id := "gc1", amount := 100 }] 1 0 "no"
    sampleDb).2 sampleBooked sampleBookedDb (by decide)
  exact ⟨(book_reservation_id_allocation "sara" "SFO" "JFK" "one_way" "economy"
    sampleLegs samplePassengers [{ payment_id := "gc1", amount := 100 }] 1 0 "no"
    sampleDb).1.1 (by decide), h1, h2⟩

theorem book_reservation_pool_exhausted_overwrites :
    (∀ pid ∈ ["HATHAT", "HATHAU", "HATHAV"], (alookup poolDb.reservations pid).isSome) ∧
    (book_reservation "sara" "SFO" "JFK" "one_way" "economy" sampleLegs samplePassengers
        [{ payment_id := "gc1", amount := 100 }] 1 0 "no" poolDb).1 =
      PyExcept.ok poolBooked ∧
    alookup (book_reservation "sara" "SFO" "JFK" "one_way" "economy" sampleLegs
        samplePassengers [{ payment_id := "gc1", amount := 100 }] 1 0 "no"
        poolDb).2.reservations "HATHAV" = some poolBooked ∧
    alookup poolDb.reservations "HATHAV" = some (dummyRes "HATHAV") ∧
    poolBooked ≠ dummyRes "HATHAV" := by
  refine ⟨by decide, by decide, by decide, by decide, by decide⟩

end TauBench
